import Mathlib

/-!
Verification model of the WaveXcontrol gesture controller (src/gcpy.py).

The Python source is shallowly embedded:

* a MediaPipe landmark set is a total function from landmark indices to
  exact rational coordinates (`Hand`); floating-point numbers are idealised
  as exact rationals, and `math.sqrt` as `Real.sqrt`;
* Python's `round(v, 1)` (round-half-to-even, one decimal place) is modelled
  by `pyRound1Q` on rationals and `pyRound1R` on reals;
* a Python exception that escapes a function is modelled by `Option`:
  `none` means the call raised;
* the class-level mutable fields of `HandRecog` and `Controller` are threaded
  as explicit state records, and every `pyautogui` call is recorded as an
  `Event` in an output trace.
-/

/-- One MediaPipe landmark: normalized x, y coordinates and relative depth z. -/
structure Landmark where
  x : ℚ
  y : ℚ
  z : ℚ

/-- A detected hand: the 21 landmark points, addressed by index as in
`hand_result.landmark[i]`.  A total function models the caller contract that
the landmark list is always complete. -/
structure Hand where
  landmark : ℕ → Landmark

/-- Gesture encodings of the `Gest` IntEnum.  The Python code freely mixes
enum members with raw ints (`current_gesture = self.finger`), so gestures are
modelled as plain naturals carrying the enum values. -/
def Gest.FIST : ℕ := 0

def Gest.PINKY : ℕ := 1

def Gest.RING : ℕ := 2

def Gest.MID : ℕ := 4

def Gest.LAST3 : ℕ := 7

def Gest.INDEX : ℕ := 8

def Gest.FIRST2 : ℕ := 12

def Gest.LAST4 : ℕ := 15

def Gest.THUMB : ℕ := 16

def Gest.PALM : ℕ := 31

def Gest.V_GEST : ℕ := 33

def Gest.TWO_FINGER_CLOSED : ℕ := 34

def Gest.PINCH_MAJOR : ℕ := 35

def Gest.PINCH_MINOR : ℕ := 36

/-- Multi-handedness label `HLabel.MINOR = 0`. -/
def HLabel.MINOR : ℕ := 0

/-- Multi-handedness label `HLabel.MAJOR = 1`. -/
def HLabel.MAJOR : ℕ := 1

/-- `HandRecog.get_signed_dist`: Euclidean distance between two landmarks,
with sign `+1` when the first point is above (smaller y than) the second,
`-1` otherwise. -/
noncomputable def get_signed_dist (h : Hand) (p q : ℕ) : ℝ :=
  let sign : ℝ := if (h.landmark p).y < (h.landmark q).y then 1 else -1
  let dist : ℝ := Real.sqrt ((((h.landmark p).x : ℝ) - ((h.landmark q).x : ℝ)) ^ 2 +
    (((h.landmark p).y : ℝ) - ((h.landmark q).y : ℝ)) ^ 2)
  dist * sign

/-- `HandRecog.get_dist`: unsigned Euclidean distance between two landmarks. -/
noncomputable def get_dist (h : Hand) (p q : ℕ) : ℝ :=
  Real.sqrt ((((h.landmark p).x : ℝ) - ((h.landmark q).x : ℝ)) ^ 2 +
    (((h.landmark p).y : ℝ) - ((h.landmark q).y : ℝ)) ^ 2)

/-- `HandRecog.get_dz`: absolute z-difference between two landmarks. -/
def get_dz (h : Hand) (p q : ℕ) : ℚ :=
  |(h.landmark p).z - (h.landmark q).z|

/-- Round-half-to-even to the nearest integer, as Python's builtin `round`
behaves on exact values. -/
def roundHalfEvenQ (q : ℚ) : ℤ :=
  let n := ⌊q⌋
  if q - n < 1 / 2 then n
  else if 1 / 2 < q - n then n + 1
  else if Even n then n else n + 1

/-- Python `round(q, 1)` on rationals: round-half-to-even at one decimal. -/
def pyRound1Q (q : ℚ) : ℚ := (roundHalfEvenQ (q * 10) : ℚ) / 10

/-- Round-half-to-even to the nearest integer, real-valued version. -/
noncomputable def roundHalfEvenR (x : ℝ) : ℤ :=
  let n := ⌊x⌋
  if x - n < 1 / 2 then n
  else if 1 / 2 < x - n then n + 1
  else if Even n then n else n + 1

/-- Python `round(x, 1)` on reals: round-half-to-even at one decimal. -/
noncomputable def pyRound1R (x : ℝ) : ℝ := (roundHalfEvenR (x * 10) : ℝ) / 10

/-- The four finger chains `[[8,5,0],[12,9,0],[16,13,0],[20,17,0]]` scanned by
`HandRecog.set_finger_state` (tip, base knuckle, wrist). -/
def fingerPoints : List (ℕ × ℕ × ℕ) := [(8, 5, 0), (12, 9, 0), (16, 13, 0), (20, 17, 0)]

/-- The per-finger ratio of `set_finger_state`:
`round(get_signed_dist([tip,knuckle]) / get_signed_dist([knuckle,wrist]), 1)`.
When the denominator distance is exactly zero, Python raises
`ZeroDivisionError`; the `except` handler then evaluates `dist1/0.01` where
`dist1` is an undefined name, so a `NameError` escapes — modelled as `none`. -/
noncomputable def ratioForFinger (h : Hand) (tip knuckle wrist : ℕ) : Option ℝ :=
  let d := get_signed_dist h tip knuckle
  let d2 := get_signed_dist h knuckle wrist
  if d2 = 0 then none
  else some (pyRound1R (d / d2))

/-- The bit-folding loop of `set_finger_state`: for each chain, shift the
accumulator left and set the low bit when the ratio exceeds `0.5`. -/
noncomputable def fingerBits (h : Hand) : List (ℕ × ℕ × ℕ) → ℕ → Option ℕ
  | [], acc => some acc
  | p :: rest, acc =>
    match ratioForFinger h p.1 p.2.1 p.2.2 with
    | none => none
    | some r => fingerBits h rest ((acc <<< 1) ||| (if r > 0.5 then 1 else 0))

/-- `HandRecog.set_finger_state`: the finger-state bit pattern computed from a
landmark set.  The accumulator starts at `0 ||| 0` (the constant thumb bit);
`none` models the uncaught `NameError` on a zero denominator. -/
noncomputable def set_finger_state (h : Hand) : Option ℕ :=
  fingerBits h fingerPoints (0 ||| 0)

/-- The raw per-frame gesture candidate computed by `HandRecog.get_gesture`
from the stored finger pattern, the landmark geometry and the hand label
(lines 182-203).  In the `FIRST2` branch the ratio `dist1/dist2` is not
guarded: a zero `dist2` raises `ZeroDivisionError`, modelled as `none`. -/
noncomputable def raw_gesture (h : Hand) (finger : ℕ) (label : ℕ) : Option ℕ :=
  if (finger = Gest.LAST3 ∨ finger = Gest.LAST4) ∧ get_dist h 8 4 < 0.05 then
    some (if label = HLabel.MINOR then Gest.PINCH_MINOR else Gest.PINCH_MAJOR)
  else if finger = Gest.FIRST2 then
    if get_dist h 5 9 = 0 then none
    else if get_dist h 8 12 / get_dist h 5 9 > 1.7 then some Gest.V_GEST
    else if get_dz h 8 12 < 0.1 then some Gest.TWO_FINGER_CLOSED
    else some Gest.MID
  else some finger

/-- The debounce state of `HandRecog`: settled gesture `ori_gesture`,
previous raw gesture, and run counter. -/
structure DebounceState where
  ori : ℕ
  prev : ℕ
  fc : ℕ
deriving DecidableEq

/-- One debounce update of `get_gesture` (lines 205-213): increment the run
counter on a repeat, reset it on a change, record the candidate, and promote
it to the settled gesture once the counter exceeds 4. -/
def debounce_step (s : DebounceState) (current : ℕ) : DebounceState :=
  let fc := if current = s.prev then s.fc + 1 else 0
  let ori := if fc > 4 then current else s.ori
  ⟨ori, current, fc⟩

/-- Debounce over a finite list of raw gesture candidates. -/
def run_debounce (s : DebounceState) (l : List ℕ) : DebounceState :=
  l.foldl debounce_step s

/-- The debounce state after `n` frames of the raw-candidate stream `f`,
starting from the initial `HandRecog` state (everything PALM, counter 0). -/
def iterDebounce (f : ℕ → ℕ) : ℕ → DebounceState
  | 0 => ⟨Gest.PALM, Gest.PALM, 0⟩
  | n + 1 => debounce_step (iterDebounce f n) (f n)

/-- The mutable per-instance state of `HandRecog`. -/
structure HandRecogState where
  finger : ℕ
  ori_gesture : ℕ
  prev_gesture : ℕ
  frame_count : ℕ
  hand_label : ℕ
  hand_result : Option Hand

/-- The state `HandRecog.__init__` builds: finger 0, both gestures PALM,
counter 0, no landmarks. -/
def initRecog (label : ℕ) : HandRecogState :=
  ⟨0, Gest.PALM, Gest.PALM, 0, label, none⟩

/-- `HandRecog.get_gesture`: returns PALM immediately when `hand_result` is
`None` (line 179-180, before any state mutation); otherwise computes the raw
candidate and applies the debounce update, returning the settled gesture. -/
noncomputable def get_gesture (s : HandRecogState) : Option (ℕ × HandRecogState) :=
  match s.hand_result with
  | none => some (Gest.PALM, s)
  | some h =>
    (raw_gesture h s.finger s.hand_label).map (fun current =>
      let d := debounce_step ⟨s.ori_gesture, s.prev_gesture, s.frame_count⟩ current
      (d.ori, { s with ori_gesture := d.ori, prev_gesture := d.prev, frame_count := d.fc }))

/-- One classification frame as driven by the main loop:
`update_hand_result(h)`, `set_finger_state()`, then `get_gesture()`. -/
noncomputable def frame_step (s : HandRecogState) (h : Hand) : Option (ℕ × HandRecogState) :=
  let s1 := { s with hand_result := some h }
  match set_finger_state h with
  | none => none
  | some f => get_gesture { s1 with finger := f }

/-- The classifier state after `n` frames of the hand stream `hs`. -/
noncomputable def runRecog (hs : ℕ → Hand) (label : ℕ) : ℕ → Option HandRecogState
  | 0 => some (initRecog label)
  | n + 1 =>
    match runRecog hs label n with
    | none => none
    | some s => (frame_step s (hs n)).map Prod.snd

/-- An OS-input action emitted through `pyautogui`. -/
inductive Event where
  | mouseDown : Event
  | mouseUp : Event
  | click : Event
  | rightClick : Event
  | doubleClick : Event
  | moveTo (x y : ℝ) : Event
  | scroll (amt : ℤ) : Event
  | keyDown (k : String) : Event
  | keyUp (k : String) : Event

/-- The class-level mutable fields of `Controller`.  In the source
`pinchstartxcoord`, `pinchstartycoord` and `pinchdirectionflag` start as
`None`; they are only ever read after `pinch_control_init` (guarded by the
pinch flags) has stored real values, so the model stores plain defaults. -/
structure CtrlState where
  flag : Bool
  grabflag : Bool
  pinchmajorflag : Bool
  pinchminorflag : Bool
  pinchstartxcoord : ℚ
  pinchstartycoord : ℚ
  pinchdirectionflag : Bool
  prevpinchlv : ℚ
  pinchlv : ℚ
  framecount : ℕ
  prev_hand : Option (ℤ × ℤ)

/-- The initial values of the `Controller` class attributes. -/
def initCtrl : CtrlState :=
  ⟨false, false, false, false, 0, 0, false, 0, 0, 0, none⟩

/-- The OS state visible to `Controller`: the cursor position read by
`pyautogui.position()` and the screen size read by `pyautogui.size()`. -/
structure OSState where
  cursor_x : ℝ
  cursor_y : ℝ
  screen_w : ℚ
  screen_h : ℚ

/-- Python `int(...)`: truncation toward zero. -/
def pyInt (q : ℚ) : ℤ := if 0 ≤ q then ⌊q⌋ else ⌈q⌉

/-- `Controller.get_position`: map landmark 9 to screen pixels, compute the
squared delta from the previously seen hand position, apply the three-tier
damping factor (`0` up to 25, `0.07*sqrt` up to 900, `2.1` beyond) and return
`old cursor + delta * factor`, recording the new raw hand position. -/
noncomputable def get_position (h : Hand) (os : OSState) (c : CtrlState) :
    (ℝ × ℝ) × CtrlState :=
  let x := pyInt ((h.landmark 9).x * os.screen_w)
  let y := pyInt ((h.landmark 9).y * os.screen_h)
  let prev := c.prev_hand.getD (x, y)
  let delta_x := x - prev.1
  let delta_y := y - prev.2
  let distsq := delta_x ^ 2 + delta_y ^ 2
  let c' := { c with prev_hand := some (x, y) }
  let r : ℝ :=
    if distsq ≤ 25 then 0
    else if distsq ≤ 900 then 0.07 * Real.sqrt (distsq : ℝ)
    else 2.1
  ((os.cursor_x + (delta_x : ℝ) * r, os.cursor_y + (delta_y : ℝ) * r), c')

/-- `Controller.pinch_threshold = 0.3`. -/
def pinch_threshold : ℚ := 3 / 10

/-- `Controller.getpinchylv`: `round((pinchstartycoord - y8) * 10, 1)`. -/
def getpinchylv (h : Hand) (starty : ℚ) : ℚ :=
  pyRound1Q ((starty - (h.landmark 8).y) * 10)

/-- `Controller.getpinchxlv`: `round((x8 - pinchstartxcoord) * 10, 1)`. -/
def getpinchxlv (h : Hand) (startx : ℚ) : ℚ :=
  pyRound1Q (((h.landmark 8).x - startx) * 10)

/-- `Controller.scrollVertical`: one wheel step whose direction is the sign
of the committed `pinchlv`. -/
def scrollVerticalEvents (lv : ℚ) : List Event :=
  [Event.scroll (if lv > 0 then 120 else -120)]

/-- `Controller.scrollHorizontal`: the same wheel step wrapped in held
shift+ctrl modifiers (the horizontal-scroll emulation). -/
def scrollHorizontalEvents (lv : ℚ) : List Event :=
  [Event.keyDown "shift", Event.keyDown "ctrl",
   Event.scroll (if lv > 0 then -120 else 120),
   Event.keyUp "ctrl", Event.keyUp "shift"]

/-- `Controller.pinch_control_init`: record the pinch origin (landmark 8) and
reset the displacement levels and the stability counter. -/
def pinch_control_init (h : Hand) (c : CtrlState) : CtrlState :=
  { c with pinchstartxcoord := (h.landmark 8).x, pinchstartycoord := (h.landmark 8).y,
           pinchlv := 0, prevpinchlv := 0, framecount := 0 }

/-- `Controller.pinch_control`: when the stability counter has reached 5,
commit (`pinchlv := prevpinchlv`, reset counter, fire the scroll for the
recorded axis); then quantize the current displacement and either bump the
counter (still within threshold of the recorded level) or re-record the
level and reset the counter. -/
def pinch_control (h : Hand) (c : CtrlState) : CtrlState × List Event :=
  let fr : CtrlState × List Event :=
    if c.framecount = 5 then
      let c' := { c with framecount := 0, pinchlv := c.prevpinchlv }
      (c', if c'.pinchdirectionflag then scrollHorizontalEvents c'.pinchlv
           else scrollVerticalEvents c'.pinchlv)
    else (c, [])
  let c1 := fr.1
  let evs := fr.2
  let lvx := getpinchxlv h c1.pinchstartxcoord
  let lvy := getpinchylv h c1.pinchstartycoord
  if |lvy| > |lvx| ∧ |lvy| > pinch_threshold then
    let c2 := { c1 with pinchdirectionflag := false }
    if |c2.prevpinchlv - lvy| < pinch_threshold then
      ({ c2 with framecount := c2.framecount + 1 }, evs)
    else
      ({ c2 with prevpinchlv := lvy, framecount := 0 }, evs)
  else if |lvx| > pinch_threshold then
    let c2 := { c1 with pinchdirectionflag := true }
    if |c2.prevpinchlv - lvx| < pinch_threshold then
      ({ c2 with framecount := c2.framecount + 1 }, evs)
    else
      ({ c2 with prevpinchlv := lvx, framecount := 0 }, evs)
  else (c1, evs)

/-- The guard of the combined-pinch branch in `Controller.handle_controls`
(line 438): `gesture == Gest.PINCH_MAJOR and gesture == Gest.PINCH_MINOR`. -/
def combined_pinch_guard (g : ℕ) : Prop :=
  g = Gest.PINCH_MAJOR ∧ g = Gest.PINCH_MINOR

instance (g : ℕ) : Decidable (combined_pinch_guard g) :=
  inferInstanceAs (Decidable (_ ∧ _))

/-- `Controller.handle_controls`: compute the cursor position when the
gesture is not PALM, run the flag-reset block, then dispatch on the gesture.
The combined-pinch branch body calls `Controller.get_pinch_gap`, an attribute
that does not exist on the class, so reaching it would raise
`AttributeError` — modelled as `none`. -/
noncomputable def handle_controls (gesture : ℕ) (h : Hand) (c : CtrlState) (os : OSState) :
    Option (CtrlState × OSState × List Event) :=
  let pc : (ℝ × ℝ) × CtrlState :=
    if gesture ≠ Gest.PALM then get_position h os c else ((0, 0), c)
  let xy := pc.1
  let c0 := pc.2
  let r1 : CtrlState × List Event :=
    if gesture ≠ Gest.FIST ∧ c0.grabflag then
      ({ c0 with grabflag := false }, [Event.mouseUp])
    else (c0, [])
  let c1 := r1.1
  let e1 := r1.2
  let c2 :=
    if gesture ≠ Gest.PINCH_MAJOR ∧ c1.pinchmajorflag then
      { c1 with pinchmajorflag := false }
    else c1
  let c3 :=
    if gesture ≠ Gest.PINCH_MINOR ∧ c2.pinchminorflag then
      { c2 with pinchminorflag := false }
    else c2
  if gesture = Gest.V_GEST then
    some ({ c3 with flag := true }, { os with cursor_x := xy.1, cursor_y := xy.2 },
      e1 ++ [Event.moveTo xy.1 xy.2])
  else if gesture = Gest.FIST then
    if ¬ c3.grabflag then
      some ({ c3 with grabflag := true }, { os with cursor_x := xy.1, cursor_y := xy.2 },
        e1 ++ [Event.mouseDown, Event.moveTo xy.1 xy.2])
    else
      some (c3, { os with cursor_x := xy.1, cursor_y := xy.2 },
        e1 ++ [Event.moveTo xy.1 xy.2])
  else if gesture = Gest.MID ∧ c3.flag then
    some ({ c3 with flag := false }, os, e1 ++ [Event.click])
  else if gesture = Gest.INDEX ∧ c3.flag then
    some ({ c3 with flag := false }, os, e1 ++ [Event.rightClick])
  else if gesture = Gest.TWO_FINGER_CLOSED ∧ c3.flag then
    some ({ c3 with flag := false }, os, e1 ++ [Event.doubleClick])
  else if gesture = Gest.PINCH_MINOR then
    let c4 :=
      if ¬ c3.pinchminorflag then
        { pinch_control_init h c3 with pinchminorflag := true }
      else c3
    let pr := pinch_control h c4
    some (pr.1, os, e1 ++ pr.2)
  else if combined_pinch_guard gesture then
    none
  else
    some (c3, os, e1)

/-- The full per-frame state of the single-hand pipeline: major-hand
classifier, controller flags, OS state. -/
structure SysState where
  recog : HandRecogState
  ctrl : CtrlState
  os : OSState

/-- One iteration of the main loop for a single (major) detected hand:
classify the frame, then hand the settled gesture to `handle_controls`. -/
noncomputable def system_step (s : SysState) (h : Hand) : Option (SysState × List Event) :=
  match frame_step s.recog h with
  | none => none
  | some (g, r') =>
    match handle_controls g h s.ctrl s.os with
    | none => none
    | some (c', os', evs) => some (⟨r', c', os'⟩, evs)

/-- The system state and accumulated event trace after `n` frames of the
hand stream `hs`, from the initial classifier and controller state. -/
noncomputable def runSystem (hs : ℕ → Hand) (os0 : OSState) :
    ℕ → Option (SysState × List Event)
  | 0 => some (⟨initRecog HLabel.MAJOR, initCtrl, os0⟩, [])
  | n + 1 =>
    match runSystem hs os0 n with
    | none => none
    | some (s, evs) => (system_step s (hs n)).map (fun p => (p.1, evs ++ p.2))

/-- The pinch-scroll state and accumulated events after `n` frames of
`pinch_control` on the hand stream `hs`. -/
def runPinch (hs : ℕ → Hand) (c0 : CtrlState) : ℕ → CtrlState × List Event
  | 0 => (c0, [])
  | n + 1 =>
    let p := runPinch hs c0 n
    let q := pinch_control (hs n) p.1
    (q.1, p.2 ++ q.2)

/-- Recognizer for the primary-button press event. -/
def isMouseDown : Event → Bool
  | Event.mouseDown => true
  | _ => false

/-- Recognizer for wheel-scroll events. -/
def isScroll : Event → Bool
  | Event.scroll _ => true
  | _ => false

/-- Number of primary-button presses in a trace. -/
def countMouseDown (l : List Event) : ℕ := (l.filter isMouseDown).length

/-- Number of wheel-scroll events in a trace. -/
def countScroll (l : List Event) : ℕ := (l.filter isScroll).length

/-- The handedness payload of one detection, as seen through
`MessageToDict(results.multi_handedness[i])['classification'][0]['label']`.
`malformed` stands for any payload on which that expression raises
(missing entry, unparseable message, absent keys); `label s` for a payload
that parses to the classification string `s`. -/
inductive Payload where
  | malformed : Payload
  | label (s : String) : Payload

/-- One per-frame detection: its handedness payload paired with its landmark
set (`results.multi_handedness[i]` / `results.multi_hand_landmarks[i]`). -/
structure Detection where
  payload : Payload
  lm : Hand

/-- One guarded handedness block of `classify_hands` over the running
`(left, right)` pair: a missing index or a malformed payload raises inside
`try` and is skipped by `except: pass`; a payload parsing to `"Right"`
overwrites the right slot, any other parsed label overwrites the left slot. -/
def assign_detection (lr : Option Hand × Option Hand) (d? : Option Detection) :
    Option Hand × Option Hand :=
  match d? with
  | none => lr
  | some d =>
    match d.payload with
    | Payload.malformed => lr
    | Payload.label s =>
      if s = "Right" then (lr.1, some d.lm) else (some d.lm, lr.2)

/-- `GestureController.classify_hands`: scan detections 0 and 1, then assign
`(major, minor)` from `dom_hand`.  Returns `(hr_major, hr_minor)`. -/
def classify_hands (dets : List Detection) (dom_hand : Bool) :
    Option Hand × Option Hand :=
  let lr := assign_detection (assign_detection (none, none) dets[0]?) dets[1]?
  if dom_hand then (lr.2, lr.1) else (lr.1, lr.2)

/-- A landmark with zero depth. -/
def lmk (x y : ℚ) : Landmark := ⟨x, y, 0⟩

/-- A hand with every finger extended straight up the line `x = 1/2`:
wrist at the bottom, base knuckles at `y = 3/5`, all four tips at `y = 1/5`,
thumb tip at `y = 1/2`. -/
def openHand : Hand :=
  ⟨fun i =>
    if i = 0 then lmk (1/2) 1
    else if i = 4 then lmk (1/2) (1/2)
    else if i = 5 ∨ i = 9 ∨ i = 13 ∨ i = 17 then lmk (1/2) (3/5)
    else if i = 8 ∨ i = 12 ∨ i = 16 ∨ i = 20 then lmk (1/2) (1/5)
    else lmk 0 0⟩

/-- A hand with every fingertip curled below its base knuckle on the line
`x = 1/2`: all four signed tip distances are negative, so the finger bit
pattern is 0 (FIST). -/
def closedHand : Hand :=
  ⟨fun i =>
    if i = 0 then lmk (1/2) 1
    else if i = 4 then lmk (1/2) (1/2)
    else if i = 5 ∨ i = 9 ∨ i = 13 ∨ i = 17 then lmk (1/2) (3/5)
    else if i = 8 ∨ i = 12 ∨ i = 16 ∨ i = 20 then lmk (1/2) (4/5)
    else lmk 0 0⟩

/-- A degenerate hand whose index base knuckle (5) coincides exactly with
the wrist (0): the first denominator distance of `set_finger_state` is 0. -/
def degHand : Hand :=
  ⟨fun i =>
    if i = 0 ∨ i = 5 then lmk (1/2) (3/5)
    else if i = 8 then lmk (1/2) (1/5)
    else lmk 0 0⟩

/-- A V-shaped hand: index and middle extended (3-4-5 triangles keep every
distance rational) and widely spread, ring and pinky curled.  Its finger
pattern is FIRST2 = 12 and its tip spread ratio is 4. -/
def vHand : Hand :=
  ⟨fun i =>
    if i = 0 then lmk (1/2) (2/3)
    else if i = 5 then lmk (9/20) (3/5)
    else if i = 9 then lmk (11/20) (3/5)
    else if i = 8 then lmk (3/10) (2/5)
    else if i = 12 then lmk (7/10) (2/5)
    else if i = 13 ∨ i = 17 then lmk (1/2) (3/5)
    else if i = 16 ∨ i = 20 then lmk (1/2) (2/3)
    else lmk 0 0⟩

/-- A FIRST2 hand whose index and middle base knuckles (5 and 9) coincide:
the unguarded spread-ratio division in `get_gesture` hits a zero denominator. -/
def crossHand : Hand :=
  ⟨fun i =>
    if i = 0 then lmk (1/2) 1
    else if i = 5 ∨ i = 9 then lmk (1/2) (3/5)
    else if i = 8 ∨ i = 12 then lmk (1/2) (1/5)
    else if i = 13 ∨ i = 17 then lmk (1/2) (3/5)
    else if i = 16 ∨ i = 20 then lmk (1/2) (4/5)
    else lmk 0 0⟩

/-- A pinch-session hand whose index tip sits at horizontal offset `d` from
the pinch origin `(1/2, 1/2)`. -/
def pinchHand (d : ℚ) : Hand :=
  ⟨fun i => if i = 8 then lmk (1/2 + d) (1/2) else lmk 0 0⟩

/-- A hand used for cursor-position tests: only landmark 9 matters. -/
def posHand : Hand :=
  ⟨fun i => if i = 9 then lmk (1/2) (3/10) else lmk 0 0⟩

/-- A featureless hand used as a landmark-set payload in role-assignment
tests. -/
def blankHand : Hand := ⟨fun _ => lmk 0 0⟩

/-- Evaluation of `Real.sqrt` at an exact square. -/
lemma sqrt_eval {x c : ℝ} (h : x = c ^ 2) (hc : 0 ≤ c) :
    Real.sqrt x = c := by
  rw [h, Real.sqrt_sq hc]

/-- Evaluation of a signed distance whose first point is strictly above the
second (sign `+1`). -/
lemma get_signed_dist_eval_pos {h : Hand} {p q : ℕ} {c : ℝ}
    (hy : (h.landmark p).y < (h.landmark q).y)
    (hd : (((h.landmark p).x : ℝ) - ((h.landmark q).x : ℝ)) ^ 2 +
      (((h.landmark p).y : ℝ) - ((h.landmark q).y : ℝ)) ^ 2 = c ^ 2)
    (hc : 0 ≤ c) :
    get_signed_dist h p q = c := by
  simp only [get_signed_dist, if_pos hy, sqrt_eval hd hc, mul_one]

/-- Evaluation of a signed distance whose first point is not above the
second (sign `-1`). -/
lemma get_signed_dist_eval_neg {h : Hand} {p q : ℕ} {c : ℝ}
    (hy : ¬ (h.landmark p).y < (h.landmark q).y)
    (hd : (((h.landmark p).x : ℝ) - ((h.landmark q).x : ℝ)) ^ 2 +
      (((h.landmark p).y : ℝ) - ((h.landmark q).y : ℝ)) ^ 2 = c ^ 2)
    (hc : 0 ≤ c) :
    get_signed_dist h p q = -c := by
  simp only [get_signed_dist, if_neg hy, sqrt_eval hd hc, mul_neg, mul_one]

/-- Evaluation of an unsigned distance. -/
lemma get_dist_eval {h : Hand} {p q : ℕ} {c : ℝ}
    (hd : (((h.landmark p).x : ℝ) - ((h.landmark q).x : ℝ)) ^ 2 +
      (((h.landmark p).y : ℝ) - ((h.landmark q).y : ℝ)) ^ 2 = c ^ 2)
    (hc : 0 ≤ c) :
    get_dist h p q = c := by
  simp only [get_dist, sqrt_eval hd hc]

/-- Python rounding of a real that is already an exact multiple of `1/10`. -/
lemma pyRound1R_int {x : ℝ} {n : ℤ} (h : x * 10 = (n : ℝ)) :
    pyRound1R x = (n : ℝ) / 10 := by
  have hf : ⌊x * 10⌋ = n := by rw [h]; exact Int.floor_intCast n
  simp only [pyRound1R, roundHalfEvenR, hf]
  rw [if_pos (by rw [h]; norm_num)]

/-- Rounding a rational whose fractional part of `q` is below one half. -/
lemma roundHalfEvenQ_down {q : ℚ} {n : ℤ} (h1 : ⌊q⌋ = n) (h2 : q - n < 1 / 2) :
    roundHalfEvenQ q = n := by
  simp only [roundHalfEvenQ, h1]
  exact if_pos h2

/-- Rounding a rational whose fractional part exceeds one half. -/
lemma roundHalfEvenQ_up {q : ℚ} {n : ℤ} (h1 : ⌊q⌋ = n) (h2 : 1 / 2 < q - n) :
    roundHalfEvenQ q = n + 1 := by
  simp only [roundHalfEvenQ, h1]
  rw [if_neg (by linarith), if_pos h2]

/-- Rounding a rational exactly between an odd floor and its successor:
half-to-even picks the successor. -/
lemma roundHalfEvenQ_tie_odd {q : ℚ} {n : ℤ} (h1 : ⌊q⌋ = n) (h2 : q - n = 1 / 2)
    (h3 : ¬ Even n) :
    roundHalfEvenQ q = n + 1 := by
  simp only [roundHalfEvenQ, h1]
  rw [if_neg (by rw [h2]; exact lt_irrefl _), if_neg (by rw [h2]; exact lt_irrefl _),
    if_neg h3]

/-- Any extended finger chain of `openHand` has signed-ratio 1. -/
lemma openHand_chain {t k : ℕ} (ht : openHand.landmark t = lmk (1/2) (1/5))
    (hk : openHand.landmark k = lmk (1/2) (3/5)) :
    ratioForFinger openHand t k 0 = some 1 := by
  have d1 : get_signed_dist openHand t k = 2/5 :=
    get_signed_dist_eval_pos (c := 2/5) (by rw [ht, hk]; norm_num [lmk])
      (by rw [ht, hk]; norm_num [lmk]) (by norm_num)
  have d2 : get_signed_dist openHand k 0 = 2/5 :=
    get_signed_dist_eval_pos (c := 2/5) (by rw [hk]; norm_num [openHand, lmk])
      (by rw [hk]; norm_num [openHand, lmk]) (by norm_num)
  have hr : ((2:ℝ)/5) / ((2:ℝ)/5) = 1 := by norm_num
  simp only [ratioForFinger, d1, d2]
  rw [if_neg (by norm_num), hr, pyRound1R_int (n := 10) (by norm_num)]
  norm_num

/-- The finger bit pattern of `openHand` is LAST4 = 15. -/
lemma openHand_sfs : set_finger_state openHand = some 15 := by
  have c1 : ratioForFinger openHand 8 5 0 = some 1 :=
    openHand_chain (by norm_num [openHand]) (by norm_num [openHand])
  have c2 : ratioForFinger openHand 12 9 0 = some 1 :=
    openHand_chain (by norm_num [openHand]) (by norm_num [openHand])
  have c3 : ratioForFinger openHand 16 13 0 = some 1 :=
    openHand_chain (by norm_num [openHand]) (by norm_num [openHand])
  have c4 : ratioForFinger openHand 20 17 0 = some 1 :=
    openHand_chain (by norm_num [openHand]) (by norm_num [openHand])
  norm_num [set_finger_state, fingerPoints, fingerBits, c1, c2, c3, c4]
  decide

/-- Any curled finger chain of `closedHand` has signed-ratio `-1/2`. -/
lemma closedHand_chain {t k : ℕ} (ht : closedHand.landmark t = lmk (1/2) (4/5))
    (hk : closedHand.landmark k = lmk (1/2) (3/5)) :
    ratioForFinger closedHand t k 0 = some (-(1/2)) := by
  have d1 : get_signed_dist closedHand t k = -(1/5) :=
    get_signed_dist_eval_neg (c := 1/5) (by rw [ht, hk]; norm_num [lmk])
      (by rw [ht, hk]; norm_num [lmk]) (by norm_num)
  have d2 : get_signed_dist closedHand k 0 = 2/5 :=
    get_signed_dist_eval_pos (c := 2/5) (by rw [hk]; norm_num [closedHand, lmk])
      (by rw [hk]; norm_num [closedHand, lmk]) (by norm_num)
  have hr : (-((1:ℝ)/5)) / ((2:ℝ)/5) = -(1/2) := by norm_num
  simp only [ratioForFinger, d1, d2]
  rw [if_neg (by norm_num), hr, pyRound1R_int (n := -5) (by norm_num)]
  norm_num

/-- The raw candidate for a FIST bit pattern is FIST itself, for any hand
geometry and label: 0 is not in `[LAST3, LAST4]` and is not `FIRST2`. -/
lemma raw_of_fist (h : Hand) (lab : ℕ) : raw_gesture h 0 lab = some 0 := by
  simp only [raw_gesture]
  rw [if_neg (by rintro ⟨h1 | h1, -⟩ <;> norm_num [Gest.LAST3, Gest.LAST4] at h1),
    if_neg (by norm_num [Gest.FIRST2])]

/-- The raw candidate for a LAST4 bit pattern whose thumb-index gap is at
least the pinch threshold is LAST4 itself. -/
lemma raw_of_last4 {h : Hand} (lab : ℕ) (hd : ¬ get_dist h 8 4 < 0.05) :
    raw_gesture h 15 lab = some 15 := by
  simp only [raw_gesture]
  rw [if_neg (by rintro ⟨-, h2⟩; exact hd h2), if_neg (by norm_num [Gest.FIRST2])]

/-- The thumb-index gap of `openHand` is `3/10`. -/
lemma openHand_d84 : get_dist openHand 8 4 = 3/10 :=
  get_dist_eval (c := 3/10) (by norm_num [openHand, lmk]) (by norm_num)

/-- The finger bit pattern of `closedHand` is FIST = 0. -/
lemma closedHand_sfs : set_finger_state closedHand = some 0 := by
  have c1 : ratioForFinger closedHand 8 5 0 = some (-(1/2)) :=
    closedHand_chain (by norm_num [closedHand]) (by norm_num [closedHand])
  have c2 : ratioForFinger closedHand 12 9 0 = some (-(1/2)) :=
    closedHand_chain (by norm_num [closedHand]) (by norm_num [closedHand])
  have c3 : ratioForFinger closedHand 16 13 0 = some (-(1/2)) :=
    closedHand_chain (by norm_num [closedHand]) (by norm_num [closedHand])
  have c4 : ratioForFinger closedHand 20 17 0 = some (-(1/2)) :=
    closedHand_chain (by norm_num [closedHand]) (by norm_num [closedHand])
  norm_num [set_finger_state, fingerPoints, fingerBits, c1, c2, c3, c4]

/-- The first finger chain of `degHand` has a zero denominator distance, so
`set_finger_state` raises. -/
lemma degHand_sfs : set_finger_state degHand = none := by
  have d2 : get_signed_dist degHand 5 0 = -0 :=
    get_signed_dist_eval_neg (c := 0) (by norm_num [degHand, lmk])
      (by norm_num [degHand, lmk]) le_rfl
  have c1 : ratioForFinger degHand 8 5 0 = none := by
    simp [ratioForFinger, d2]
  simp only [set_finger_state, fingerPoints, fingerBits, c1]

/-- The index chain of `vHand` has signed-ratio 3. -/
lemma vHand_chain1 : ratioForFinger vHand 8 5 0 = some 3 := by
  have d1 : get_signed_dist vHand 8 5 = 1/4 :=
    get_signed_dist_eval_pos (c := 1/4) (by norm_num [vHand, lmk])
      (by norm_num [vHand, lmk]) (by norm_num)
  have d2 : get_signed_dist vHand 5 0 = 1/12 :=
    get_signed_dist_eval_pos (c := 1/12) (by norm_num [vHand, lmk])
      (by norm_num [vHand, lmk]) (by norm_num)
  have hr : ((1:ℝ)/4) / ((1:ℝ)/12) = 3 := by norm_num
  simp only [ratioForFinger, d1, d2]
  rw [if_neg (by norm_num), hr, pyRound1R_int (n := 30) (by norm_num)]
  norm_num

/-- The middle chain of `vHand` has signed-ratio 3. -/
lemma vHand_chain2 : ratioForFinger vHand 12 9 0 = some 3 := by
  have d1 : get_signed_dist vHand 12 9 = 1/4 :=
    get_signed_dist_eval_pos (c := 1/4) (by norm_num [vHand, lmk])
      (by norm_num [vHand, lmk]) (by norm_num)
  have d2 : get_signed_dist vHand 9 0 = 1/12 :=
    get_signed_dist_eval_pos (c := 1/12) (by norm_num [vHand, lmk])
      (by norm_num [vHand, lmk]) (by norm_num)
  have hr : ((1:ℝ)/4) / ((1:ℝ)/12) = 3 := by norm_num
  simp only [ratioForFinger, d1, d2]
  rw [if_neg (by norm_num), hr, pyRound1R_int (n := 30) (by norm_num)]
  norm_num

/-- A curled chain of `vHand` (tip at the wrist height, knuckle above it)
has signed-ratio `-1`. -/
lemma vHand_chain_curl {t k : ℕ} (ht : vHand.landmark t = lmk (1/2) (2/3))
    (hk : vHand.landmark k = lmk (1/2) (3/5)) :
    ratioForFinger vHand t k 0 = some (-1) := by
  have d1 : get_signed_dist vHand t k = -(1/15) :=
    get_signed_dist_eval_neg (c := 1/15) (by rw [ht, hk]; norm_num [lmk])
      (by rw [ht, hk]; norm_num [lmk]) (by norm_num)
  have d2 : get_signed_dist vHand k 0 = 1/15 :=
    get_signed_dist_eval_pos (c := 1/15) (by rw [hk]; norm_num [vHand, lmk])
      (by rw [hk]; norm_num [vHand, lmk]) (by norm_num)
  have hr : (-((1:ℝ)/15)) / ((1:ℝ)/15) = -1 := by norm_num
  simp only [ratioForFinger, d1, d2]
  rw [if_neg (by norm_num), hr, pyRound1R_int (n := -10) (by norm_num)]
  norm_num

/-- The finger bit pattern of `vHand` is FIRST2 = 12. -/
lemma vHand_sfs : set_finger_state vHand = some 12 := by
  have c3 : ratioForFinger vHand 16 13 0 = some (-1) :=
    vHand_chain_curl (by norm_num [vHand]) (by norm_num [vHand])
  have c4 : ratioForFinger vHand 20 17 0 = some (-1) :=
    vHand_chain_curl (by norm_num [vHand]) (by norm_num [vHand])
  norm_num [set_finger_state, fingerPoints, fingerBits, vHand_chain1, vHand_chain2, c3, c4]
  decide

/-- On finger pattern FIRST2, `vHand` disambiguates to V_GEST: its tip
spread ratio is 4 > 1.7. -/
lemma vHand_raw (lab : ℕ) : raw_gesture vHand 12 lab = some Gest.V_GEST := by
  have d59 : get_dist vHand 5 9 = 1/10 :=
    get_dist_eval (c := 1/10) (by norm_num [vHand, lmk]) (by norm_num)
  have d812 : get_dist vHand 8 12 = 2/5 :=
    get_dist_eval (c := 2/5) (by norm_num [vHand, lmk]) (by norm_num)
  simp only [raw_gesture, d59, d812]
  rw [if_neg (by rintro ⟨h1 | h1, -⟩ <;> norm_num [Gest.LAST3, Gest.LAST4] at h1),
    if_pos (by norm_num [Gest.FIRST2]), if_neg (by norm_num), if_pos (by norm_num)]

/-- An extended chain of `crossHand` (same geometry as `openHand`'s chains)
has signed-ratio 1. -/
lemma crossHand_chain_ext {t k : ℕ} (ht : crossHand.landmark t = lmk (1/2) (1/5))
    (hk : crossHand.landmark k = lmk (1/2) (3/5)) :
    ratioForFinger crossHand t k 0 = some 1 := by
  have d1 : get_signed_dist crossHand t k = 2/5 :=
    get_signed_dist_eval_pos (c := 2/5) (by rw [ht, hk]; norm_num [lmk])
      (by rw [ht, hk]; norm_num [lmk]) (by norm_num)
  have d2 : get_signed_dist crossHand k 0 = 2/5 :=
    get_signed_dist_eval_pos (c := 2/5) (by rw [hk]; norm_num [crossHand, lmk])
      (by rw [hk]; norm_num [crossHand, lmk]) (by norm_num)
  have hr : ((2:ℝ)/5) / ((2:ℝ)/5) = 1 := by norm_num
  simp only [ratioForFinger, d1, d2]
  rw [if_neg (by norm_num), hr, pyRound1R_int (n := 10) (by norm_num)]
  norm_num

/-- A curled chain of `crossHand` has signed-ratio `-1/2`. -/
lemma crossHand_chain_curl {t k : ℕ} (ht : crossHand.landmark t = lmk (1/2) (4/5))
    (hk : crossHand.landmark k = lmk (1/2) (3/5)) :
    ratioForFinger crossHand t k 0 = some (-(1/2)) := by
  have d1 : get_signed_dist crossHand t k = -(1/5) :=
    get_signed_dist_eval_neg (c := 1/5) (by rw [ht, hk]; norm_num [lmk])
      (by rw [ht, hk]; norm_num [lmk]) (by norm_num)
  have d2 : get_signed_dist crossHand k 0 = 2/5 :=
    get_signed_dist_eval_pos (c := 2/5) (by rw [hk]; norm_num [crossHand, lmk])
      (by rw [hk]; norm_num [crossHand, lmk]) (by norm_num)
  have hr : (-((1:ℝ)/5)) / ((2:ℝ)/5) = -(1/2) := by norm_num
  simp only [ratioForFinger, d1, d2]
  rw [if_neg (by norm_num), hr, pyRound1R_int (n := -5) (by norm_num)]
  norm_num

/-- The finger bit pattern of `crossHand` is FIRST2 = 12. -/
lemma crossHand_sfs : set_finger_state crossHand = some 12 := by
  have c1 : ratioForFinger crossHand 8 5 0 = some 1 :=
    crossHand_chain_ext (by norm_num [crossHand]) (by norm_num [crossHand])
  have c2 : ratioForFinger crossHand 12 9 0 = some 1 :=
    crossHand_chain_ext (by norm_num [crossHand]) (by norm_num [crossHand])
  have c3 : ratioForFinger crossHand 16 13 0 = some (-(1/2)) :=
    crossHand_chain_curl (by norm_num [crossHand]) (by norm_num [crossHand])
  have c4 : ratioForFinger crossHand 20 17 0 = some (-(1/2)) :=
    crossHand_chain_curl (by norm_num [crossHand]) (by norm_num [crossHand])
  norm_num [set_finger_state, fingerPoints, fingerBits, c1, c2, c3, c4]
  decide

/-- On finger pattern FIRST2, `crossHand` hits the unguarded division:
its knuckle distance `dist(5,9)` is exactly 0, so `get_gesture` raises. -/
lemma crossHand_raw (lab : ℕ) : raw_gesture crossHand 12 lab = none := by
  have d59 : get_dist crossHand 5 9 = 0 :=
    get_dist_eval (c := 0) (by norm_num [crossHand, lmk]) le_rfl
  simp only [raw_gesture, d59]
  rw [if_neg (by rintro ⟨h1 | h1, -⟩ <;> norm_num [Gest.LAST3, Gest.LAST4] at h1),
    if_pos (by norm_num [Gest.FIRST2])]
  simp

/-- The hypothesis of claim C1: on a given frame, all four non-thumb finger
ratios computed during finger-state extraction are defined and exceed 0.5. -/
def extendedFrame (h : Hand) : Prop :=
  ∀ p ∈ fingerPoints, ∃ r : ℝ, ratioForFinger h p.1 p.2.1 p.2.2 = some r ∧ r > 0.5

/-- Every chain of `openHand` satisfies the C1 hypothesis. -/
lemma openHand_extended : extendedFrame openHand := by
  intro p hp
  simp only [fingerPoints, List.mem_cons, List.not_mem_nil, or_false] at hp
  rcases hp with h | h | h | h <;> subst h <;>
    exact ⟨1, openHand_chain (by norm_num [openHand]) (by norm_num [openHand]), by norm_num⟩

/-- Under the C1 hypothesis every finger bit is set: the computed pattern is
LAST4 = 15 (the thumb bit is the constant 0). -/
lemma sfs_of_extended {h : Hand} (he : extendedFrame h) : set_finger_state h = some 15 := by
  simp only [extendedFrame, fingerPoints, List.mem_cons, List.not_mem_nil, or_false] at he
  obtain ⟨r1, e1, g1⟩ := he (8, 5, 0) (by norm_num)
  obtain ⟨r2, e2, g2⟩ := he (12, 9, 0) (by norm_num)
  obtain ⟨r3, e3, g3⟩ := he (16, 13, 0) (by norm_num)
  obtain ⟨r4, e4, g4⟩ := he (20, 17, 0) (by norm_num)
  simp only [set_finger_state, fingerPoints, fingerBits, e1, e2, e3, e4]
  rw [if_pos g1, if_pos g2, if_pos g3, if_pos g4]
  decide

/-- Evaluation of one classification frame when neither the finger-state
extraction nor the gesture disambiguation raises. -/
lemma frame_step_eval (s : HandRecogState) (h : Hand) (F cur : ℕ)
    (h1 : set_finger_state h = some F)
    (h2 : raw_gesture h F s.hand_label = some cur) :
    frame_step s h =
      some ((debounce_step ⟨s.ori_gesture, s.prev_gesture, s.frame_count⟩ cur).ori,
        { s with finger := F, hand_result := some h,
                 ori_gesture := (debounce_step ⟨s.ori_gesture, s.prev_gesture, s.frame_count⟩ cur).ori,
                 prev_gesture := (debounce_step ⟨s.ori_gesture, s.prev_gesture, s.frame_count⟩ cur).prev,
                 frame_count := (debounce_step ⟨s.ori_gesture, s.prev_gesture, s.frame_count⟩ cur).fc }) := by
  simp only [frame_step, h1, get_gesture, h2]
  rfl

/-- Trace of the classifier on a stream of all-fingers-extended, non-pinch
frames: the candidate is LAST4 = 15 on every frame, the run counter grows
from 0, and the settled gesture flips from PALM to 15 on frame 6. -/
lemma runRecog_last4 (hs : ℕ → Hand) (lab : ℕ)
    (hyp : ∀ i, extendedFrame (hs i) ∧ ¬ get_dist (hs i) 8 4 < 0.05) :
    ∀ n, runRecog hs lab (n + 1) =
      some ⟨15, if n + 1 ≤ 5 then 31 else 15, 15, n, lab, some (hs n)⟩ := by
  intro n
  induction n with
  | zero =>
    simp only [runRecog, initRecog]
    rw [frame_step_eval _ _ 15 15 (sfs_of_extended (hyp 0).1) (raw_of_last4 lab (hyp 0).2)]
    simp [debounce_step, Gest.PALM]
  | succ k ih =>
    rw [runRecog, ih]
    show (frame_step ⟨15, if k + 1 ≤ 5 then 31 else 15, 15, k, lab, some (hs k)⟩
      (hs (k + 1))).map Prod.snd = _
    rw [frame_step_eval _ _ 15 15 (sfs_of_extended (hyp (k + 1)).1)
      (raw_of_last4 lab (hyp (k + 1)).2)]
    have hori : debounce_step ⟨if k + 1 ≤ 5 then 31 else 15, 15, k⟩ 15 =
        ⟨if k + 1 + 1 ≤ 5 then 31 else 15, 15, k + 1⟩ := by
      simp only [debounce_step, if_true]
      congr 1
      split_ifs <;> omega
    simp only [hori]
    rfl

/-- C1 (amended): for every stream of landmark frames on which all four
non-thumb finger ratios are > 0.5 and the thumb-index gap stays at or above
the pinch threshold 0.05, the settled gesture returned by
`HandRecog.get_gesture` becomes LAST4 (enum value 15, the 4-bit
all-extended pattern; the thumb bit is a constant 0) from frame 6 on —
5 stable frames after the first frame resets the run counter. -/
theorem C1_theorem (hs : ℕ → Hand) (lab : ℕ)
    (hyp : ∀ i, extendedFrame (hs i) ∧ ¬ get_dist (hs i) 8 4 < 0.05) :
    ∀ n, 6 ≤ n → (runRecog hs lab n).map HandRecogState.ori_gesture = some Gest.LAST4 := by
  intro n hn
  obtain ⟨m, rfl⟩ : ∃ m, n = m + 1 := ⟨n - 1, by omega⟩
  rw [runRecog_last4 hs lab hyp m, if_neg (by omega)]
  rfl

/-- C1 counterexample: `openHand` has all four ratios > 0.5 on every frame
of the constant stream, yet after 5 stable frames (frame 6) the settled
gesture is LAST4 = 15, not PALM = 31: the thumb bit can never be set, so the
claimed PALM settlement is impossible. -/
theorem C1_counterexample :
    extendedFrame openHand ∧ ¬ get_dist openHand 8 4 < 0.05 ∧
      (runRecog (fun _ => openHand) HLabel.MAJOR 6).map HandRecogState.ori_gesture ≠
        some Gest.PALM := by
  refine ⟨openHand_extended, by rw [openHand_d84]; norm_num, ?_⟩
  rw [runRecog_last4 (fun _ => openHand) HLabel.MAJOR
    (fun _ => ⟨openHand_extended, by rw [openHand_d84]; norm_num⟩) 5]
  simp [Gest.PALM]

/-- C1 witness: the constant `openHand` stream satisfies the hypotheses and
settles to LAST4 at frame 6. -/
theorem C1_witness :
    (runRecog (fun _ => openHand) HLabel.MAJOR 6).map HandRecogState.ori_gesture =
      some Gest.LAST4 :=
  C1_theorem (fun _ => openHand) HLabel.MAJOR
    (fun _ => ⟨openHand_extended, by rw [openHand_d84]; norm_num⟩) 6 (by norm_num)

/-- C3: at a landmark set whose reference denominator distance is exactly
zero (base knuckle 5 coinciding with wrist 0), the finger-state ratio
computation raises instead of guarding: the `except` handler evaluates
`dist1/0.01` where `dist1` is undefined, so a `NameError` escapes
`set_finger_state` and no finger state is produced. -/
theorem C3_theorem :
    get_signed_dist degHand 5 0 = 0 ∧ set_finger_state degHand = none := by
  constructor
  · have d2 : get_signed_dist degHand 5 0 = -0 :=
      get_signed_dist_eval_neg (c := 0) (by norm_num [degHand, lmk])
        (by norm_num [degHand, lmk]) le_rfl
    rw [d2, neg_zero]
  · exact degHand_sfs

/-- C8 (amended): for every landmark set whose finger bit pattern equals
FIRST2 and whose index-middle knuckle distance is nonzero, the raw candidate
is V_GEST when the tip spread ratio exceeds 1.7, else TWO_FINGER_CLOSED when
the z-depth gap is below 0.1, else MID.  (With a zero knuckle distance the
unguarded division raises instead.) -/
theorem C8_theorem (h : Hand) (lab F : ℕ)
    (hF : set_finger_state h = some F) (h12 : F = Gest.FIRST2)
    (hnz : get_dist h 5 9 ≠ 0) :
    (get_dist h 8 12 / get_dist h 5 9 > 1.7 → raw_gesture h F lab = some Gest.V_GEST) ∧
    (¬ get_dist h 8 12 / get_dist h 5 9 > 1.7 → get_dz h 8 12 < 0.1 →
      raw_gesture h F lab = some Gest.TWO_FINGER_CLOSED) ∧
    (¬ get_dist h 8 12 / get_dist h 5 9 > 1.7 → ¬ get_dz h 8 12 < 0.1 →
      raw_gesture h F lab = some Gest.MID) := by
  subst h12
  have hpin : ¬ ((Gest.FIRST2 = Gest.LAST3 ∨ Gest.FIRST2 = Gest.LAST4) ∧
      get_dist h 8 4 < 0.05) := by
    rintro ⟨h1 | h1, -⟩ <;> norm_num [Gest.FIRST2, Gest.LAST3, Gest.LAST4] at h1
  refine ⟨fun hgt => ?_, fun hle hdz => ?_, fun hle hdz => ?_⟩ <;>
      simp only [raw_gesture] <;> rw [if_neg hpin, if_pos trivial, if_neg hnz]
  · rw [if_pos hgt]
  · rw [if_neg hle, if_pos hdz]
  · rw [if_neg hle, if_neg hdz]

/-- C8 counterexample: `crossHand` has finger pattern FIRST2, but its
knuckle distance `dist(5,9)` is exactly zero, so the raw candidate is not
V_GEST, TWO_FINGER_CLOSED or MID — the unguarded ratio division raises
`ZeroDivisionError` and the classification crashes. -/
theorem C8_counterexample :
    set_finger_state crossHand = some Gest.FIRST2 ∧
      raw_gesture crossHand Gest.FIRST2 HLabel.MAJOR = none :=
  ⟨crossHand_sfs, crossHand_raw HLabel.MAJOR⟩

/-- C8 witness: `vHand` has pattern FIRST2, nonzero knuckle distance, and
spread ratio 4 > 1.7, so its raw candidate is V_GEST. -/
theorem C8_witness :
    raw_gesture vHand Gest.FIRST2 HLabel.MAJOR = some Gest.V_GEST := by
  have d59 : get_dist vHand 5 9 = 1/10 :=
    get_dist_eval (c := 1/10) (by norm_num [vHand, lmk]) (by norm_num)
  have d812 : get_dist vHand 8 12 = 2/5 :=
    get_dist_eval (c := 2/5) (by norm_num [vHand, lmk]) (by norm_num)
  exact (C8_theorem vHand HLabel.MAJOR Gest.FIRST2 vHand_sfs rfl
    (by rw [d59]; norm_num)).1 (by rw [d59, d812]; norm_num)

/-- C9: when `hand_result` is `None`, `get_gesture` returns PALM and leaves
the entire classifier state — in particular `ori_gesture`, `prev_gesture`
and `frame_count` — unchanged, so a null frame cannot cause a false
debounced transition later. -/
theorem C9_theorem (s : HandRecogState) (h0 : s.hand_result = none) :
    get_gesture s = some (Gest.PALM, s) := by
  simp only [get_gesture, h0]

/-- C9 witness: the freshly initialised classifier state has no hand result
and classifies as PALM without any state change. -/
theorem C9_witness :
    get_gesture (initRecog HLabel.MAJOR) = some (Gest.PALM, initRecog HLabel.MAJOR) :=
  C9_theorem (initRecog HLabel.MAJOR) rfl

/-- After at least one frame, the recorded previous raw gesture is the last
stream element. -/
lemma iterDebounce_prev (f : ℕ → ℕ) (n : ℕ) :
    (iterDebounce f (n + 1)).prev = f n := rfl

/-- The run counter never exceeds the number of frames seen. -/
lemma iterDebounce_fc_le (f : ℕ → ℕ) : ∀ n, (iterDebounce f n).fc ≤ n := by
  intro n
  induction n with
  | zero => exact le_refl 0
  | succ k ih =>
    show (debounce_step (iterDebounce f k) (f k)).fc ≤ k + 1
    simp only [debounce_step]
    split_ifs <;> omega

/-- A run counter of `k` certifies that the last `k + 1` raw candidates were
identical: every element up to `k` frames back equals the latest one. -/
lemma iterDebounce_run (f : ℕ → ℕ) :
    ∀ n j, j ≤ (iterDebounce f n).fc → f (n - 1 - j) = f (n - 1) := by
  intro n
  induction n with
  | zero =>
    intro j hj
    have h0 : (iterDebounce f 0).fc = 0 := rfl
    rw [h0] at hj
    have hj0 : j = 0 := by omega
    subst hj0
    rfl
  | succ m ih =>
    intro j hj
    have hfc : (iterDebounce f (m + 1)).fc =
        if f m = (iterDebounce f m).prev then (iterDebounce f m).fc + 1 else 0 := rfl
    by_cases heq : f m = (iterDebounce f m).prev
    · rw [hfc, if_pos heq] at hj
      cases j with
      | zero => simp
      | succ jj =>
        have hjj : jj ≤ (iterDebounce f m).fc := by omega
        cases m with
        | zero =>
          have h0 : (iterDebounce f 0).fc = 0 := rfl
          have hjj0 : jj = 0 := by omega
          subst hjj0
          have e : 0 + 1 - 1 - (0 + 1) = 0 + 1 - 1 := by omega
          rw [e]
        | succ mm =>
          have hprev : f (mm + 1) = f mm := by rw [heq, iterDebounce_prev]
          have e1 : mm + 1 + 1 - 1 - (jj + 1) = mm + 1 - 1 - jj := by omega
          have e2 : mm + 1 + 1 - 1 = mm + 1 := by omega
          rw [e1, e2, ih jj hjj]
          have e3 : mm + 1 - 1 = mm := by omega
          rw [e3]
          exact hprev.symm
    · rw [hfc, if_neg heq] at hj
      have hj0 : j = 0 := by omega
      subst hj0
      simp

/-- C7 (amended): (a) from any prior classifier state whose run counter is 0
or whose previous raw gesture differs from A, feeding 4 frames of raw
gesture A, one frame of a different raw gesture B, then 4 more frames of A
leaves the settled gesture unchanged — the B frame resets the counter, so it
never exceeds 4; (b) in general, from the initial state, whenever the
settled gesture changes on a frame, the raw classifications of that frame
and the 4 preceding frames (at least 5 consecutive) are identical.  (From an
arbitrary prior state with a nonzero counter, part (a)'s unrestricted form
is false: see the counterexample.) -/
theorem C7_theorem :
    (∀ (s : DebounceState) (A B : ℕ), B ≠ A → (s.fc = 0 ∨ s.prev ≠ A) →
      (run_debounce s [A, A, A, A, B, A, A, A, A]).ori = s.ori) ∧
    (∀ (f : ℕ → ℕ) (n : ℕ), (iterDebounce f (n + 1)).ori ≠ (iterDebounce f n).ori →
      4 ≤ n ∧ ∀ i, n - 4 ≤ i → i ≤ n → f i = f n) := by
  constructor
  · intro s A B hBA hyp
    obtain ⟨o, p, fc⟩ := s
    by_cases hp : A = p
    · subst hp
      have h0 : fc = 0 := by
        rcases hyp with h0 | hne
        · exact h0
        · exact absurd rfl hne
      subst h0
      simp [run_debounce, debounce_step, hBA, Ne.symm hBA]
    · simp [run_debounce, debounce_step, hp, hBA, Ne.symm hBA]
  · intro f n hch
    have hfc : 4 < (iterDebounce f (n + 1)).fc := by
      by_contra hle
      apply hch
      have hdef : (iterDebounce f (n + 1)).ori =
          if (iterDebounce f (n + 1)).fc > 4 then f n else (iterDebounce f n).ori := rfl
      rw [hdef, if_neg hle]
    have hbound := iterDebounce_fc_le f (n + 1)
    refine ⟨by omega, fun i h1 h2 => ?_⟩
    have hrun := iterDebounce_run f (n + 1) (n - i) (by omega)
    have e1 : n + 1 - 1 - (n - i) = i := by omega
    have e2 : n + 1 - 1 = n := by omega
    rw [e1, e2] at hrun
    exact hrun

/-- C7 counterexample: the state (settled PALM, previous raw FIST, counter
4) is reachable from the initial state by 5 FIST frames; from it, the
claim's sequence — 4 frames of A = FIST, one frame of B = PALM, then
resuming A — changes the settled gesture to FIST: the counter exceeds 4
already during the first 4 A-frames. -/
theorem C7_counterexample :
    iterDebounce (fun _ => Gest.FIST) 5 = ⟨Gest.PALM, Gest.FIST, 4⟩ ∧
    (run_debounce ⟨Gest.PALM, Gest.FIST, 4⟩
      [Gest.FIST, Gest.FIST, Gest.FIST, Gest.FIST, Gest.PALM,
       Gest.FIST, Gest.FIST, Gest.FIST, Gest.FIST]).ori = Gest.FIST ∧
    Gest.FIST ≠ Gest.PALM := by
  refine ⟨by decide, by decide, by decide⟩

/-- C7 witness: both parts instantiated — the debounced gesture survives an
A-A-A-A-B-A-A-A-A burst from the initial state, and a settle on frame 6 of
the constant-FIST stream certifies 5 identical raw frames. -/
theorem C7_witness :
    (run_debounce ⟨Gest.PALM, Gest.PALM, 0⟩
      [Gest.FIST, Gest.FIST, Gest.FIST, Gest.FIST, Gest.PALM,
       Gest.FIST, Gest.FIST, Gest.FIST, Gest.FIST]).ori = Gest.PALM ∧
    (4 ≤ 5 ∧ ∀ i, 5 - 4 ≤ i → i ≤ 5 →
      (fun _ => Gest.FIST) i = (fun _ => Gest.FIST) 5) :=
  ⟨C7_theorem.1 ⟨Gest.PALM, Gest.PALM, 0⟩ Gest.FIST Gest.PALM (by decide) (Or.inl rfl),
   C7_theorem.2 (fun _ => Gest.FIST) 5 (by decide)⟩

set_option maxHeartbeats 1600000 in
/-- C10: the guard of the combined-pinch branch, `gesture == PINCH_MAJOR and
gesture == PINCH_MINOR`, is unsatisfiable for every gesture value, and
consequently `handle_controls` never reaches the branch body (it returns a
defined result for every input instead of raising on the nonexistent
`get_pinch_gap` attribute). -/
theorem C10_theorem (g : ℕ) (h : Hand) (c : CtrlState) (os : OSState) :
    ¬ combined_pinch_guard g ∧ (handle_controls g h c os).isSome = true := by
  constructor
  · rintro ⟨e1, e2⟩
    rw [e1] at e2
    norm_num [Gest.PINCH_MAJOR, Gest.PINCH_MINOR] at e2
  · unfold handle_controls
    generalize (if g ≠ Gest.PALM then get_position h os c else ((0, 0), c)) = pc
    repeat' split
    all_goals
      first
        | rfl
        | (simp only []; split_ifs <;> rfl)
        | exact absurd ‹combined_pinch_guard g›
            (by rintro ⟨e1, e2⟩; rw [e1] at e2;
                norm_num [Gest.PINCH_MAJOR, Gest.PINCH_MINOR] at e2)

/-- Fixture OS state: cursor at (100, 200) on a 1000 x 1000 screen. -/
def testOS : OSState := ⟨100, 200, 1000, 1000⟩

/-- A controller state remembering the given previous hand position. -/
def cPrev (p : ℤ × ℤ) : CtrlState := { initCtrl with prev_hand := some p }

/-- C6: `get_position` applies the three-tier damping curve exactly — no
move when the squared delta is at most 25, scale `0.07 * sqrt(delta^2)` up
to 900, fixed scale 2.1 beyond, with the result equal to the old OS cursor
plus the scaled delta.  In particular a delta of (5,0) (squared 25) leaves
the cursor at the old position, and a delta of (6,0) (squared 36) moves x by
`6 * (0.07 * 6)` — the delta times the `0.07 * sqrt 36` scale. -/
theorem C6_theorem (h : Hand) (os : OSState) (c : CtrlState) :
    (let x := pyInt ((h.landmark 9).x * os.screen_w)
     let y := pyInt ((h.landmark 9).y * os.screen_h)
     let prev := c.prev_hand.getD (x, y)
     let delta_x := x - prev.1
     let delta_y := y - prev.2
     let distsq := delta_x ^ 2 + delta_y ^ 2
     (distsq ≤ 25 → (get_position h os c).1 = (os.cursor_x, os.cursor_y)) ∧
     (25 < distsq → distsq ≤ 900 →
       (get_position h os c).1 =
         (os.cursor_x + (delta_x : ℝ) * (0.07 * Real.sqrt (distsq : ℝ)),
          os.cursor_y + (delta_y : ℝ) * (0.07 * Real.sqrt (distsq : ℝ)))) ∧
     (900 < distsq →
       (get_position h os c).1 =
         (os.cursor_x + (delta_x : ℝ) * 2.1, os.cursor_y + (delta_y : ℝ) * 2.1))) ∧
    (get_position posHand testOS (cPrev (495, 300))).1 = (100, 200) ∧
    (get_position posHand testOS (cPrev (494, 300))).1 = (100 + 6 * (0.07 * 6), 200) := by
  refine ⟨⟨fun h1 => ?_, fun h1 h2 => ?_, fun h1 => ?_⟩, ?_, ?_⟩
  · simp only [get_position]
    rw [if_pos h1]
    norm_num
  · simp only [get_position]
    rw [if_neg (by omega), if_pos h2]
  · simp only [get_position]
    rw [if_neg (by omega), if_neg (by omega)]
  · have hx : pyInt ((posHand.landmark 9).x * testOS.screen_w) = 500 := by
      norm_num [posHand, lmk, testOS, pyInt, Int.floor_eq_iff]
    have hy : pyInt ((posHand.landmark 9).y * testOS.screen_h) = 300 := by
      norm_num [posHand, lmk, testOS, pyInt, Int.floor_eq_iff]
    simp only [get_position, hx, hy, cPrev, initCtrl, Option.getD_some]
    norm_num [testOS]
  · have hx : pyInt ((posHand.landmark 9).x * testOS.screen_w) = 500 := by
      norm_num [posHand, lmk, testOS, pyInt, Int.floor_eq_iff]
    have hy : pyInt ((posHand.landmark 9).y * testOS.screen_h) = 300 := by
      norm_num [posHand, lmk, testOS, pyInt, Int.floor_eq_iff]
    simp only [get_position, hx, hy, cPrev, initCtrl, Option.getD_some]
    norm_num [testOS]
    rw [show (36:ℝ) = (6:ℝ)^2 by norm_num, Real.sqrt_sq (by norm_num)]
    norm_num

/-- C6 witness: a concrete hand whose delta from the previous position is
exactly (5,0) does not move the cursor. -/
theorem C6_witness :
    (get_position posHand testOS (cPrev (495, 300))).1 =
      (testOS.cursor_x, testOS.cursor_y) := by
  refine (C6_theorem posHand testOS (cPrev (495, 300))).1.1 ?_
  norm_num [pyInt, posHand, lmk, testOS, cPrev, initCtrl, Int.floor_eq_iff]

/-- The left slot after one handedness block is either unchanged or the
landmark set of a successfully parsed detection. -/
lemma assign_detection_fst (lr : Option Hand × Option Hand) (d? : Option Detection) :
    (assign_detection lr d?).1 = lr.1 ∨
      ∃ d, d? = some d ∧ d.payload ≠ Payload.malformed ∧
        (assign_detection lr d?).1 = some d.lm := by
  rcases d? with _ | d
  · exact Or.inl rfl
  · rcases hd : d.payload with _ | s
    · left
      simp [assign_detection, hd]
    · by_cases hs : s = "Right"
      · left
        simp [assign_detection, hd, hs]
      · right
        exact ⟨d, rfl, by simp [hd], by simp [assign_detection, hd, hs]⟩

/-- The right slot after one handedness block is either unchanged or the
landmark set of a successfully parsed detection. -/
lemma assign_detection_snd (lr : Option Hand × Option Hand) (d? : Option Detection) :
    (assign_detection lr d?).2 = lr.2 ∨
      ∃ d, d? = some d ∧ d.payload ≠ Payload.malformed ∧
        (assign_detection lr d?).2 = some d.lm := by
  rcases d? with _ | d
  · exact Or.inl rfl
  · rcases hd : d.payload with _ | s
    · left
      simp [assign_detection, hd]
    · by_cases hs : s = "Right"
      · right
        exact ⟨d, rfl, by simp [hd], by simp [assign_detection, hd, hs]⟩
      · left
        simp [assign_detection, hd, hs]

/-- C5 (amended): a detection whose handedness payload is missing or
malformed/unparseable is dropped — every hand that reaches the major or
minor role is the landmark set of one of the first two detections whose
payload parsed successfully, and `classify_hands` is total (no crash).  But
an ambiguous payload that still parses to a label other than `"Right"` is
not dropped: it is guessed onto the left role, which becomes the minor hand
when the dominant hand is the right one. -/
theorem C5_theorem (dets : List Detection) (dom : Bool) :
    (∀ hnd, (classify_hands dets dom).1 = some hnd →
      ∃ i, i < 2 ∧ ∃ d, dets[i]? = some d ∧ d.payload ≠ Payload.malformed ∧ d.lm = hnd) ∧
    (∀ hnd, (classify_hands dets dom).2 = some hnd →
      ∃ i, i < 2 ∧ ∃ d, dets[i]? = some d ∧ d.payload ≠ Payload.malformed ∧ d.lm = hnd) ∧
    (∀ s lm, s ≠ "Right" →
      classify_hands [⟨Payload.label s, lm⟩] true = (none, some lm)) := by
  have key1 : ∀ hnd,
      (assign_detection (assign_detection (none, none) dets[0]?) dets[1]?).1 = some hnd →
      ∃ i, i < 2 ∧ ∃ d, dets[i]? = some d ∧ d.payload ≠ Payload.malformed ∧ d.lm = hnd := by
    intro hnd h1
    rcases assign_detection_fst (assign_detection (none, none) dets[0]?) dets[1]? with
      he | ⟨d, hd, hp, hv⟩
    · rw [he] at h1
      rcases assign_detection_fst (none, none) dets[0]? with he0 | ⟨d, hd, hp, hv⟩
      · rw [he0] at h1
        cases h1
      · rw [hv] at h1
        exact ⟨0, by norm_num, d, hd, hp, Option.some.inj h1⟩
    · rw [hv] at h1
      exact ⟨1, by norm_num, d, hd, hp, Option.some.inj h1⟩
  have key2 : ∀ hnd,
      (assign_detection (assign_detection (none, none) dets[0]?) dets[1]?).2 = some hnd →
      ∃ i, i < 2 ∧ ∃ d, dets[i]? = some d ∧ d.payload ≠ Payload.malformed ∧ d.lm = hnd := by
    intro hnd h1
    rcases assign_detection_snd (assign_detection (none, none) dets[0]?) dets[1]? with
      he | ⟨d, hd, hp, hv⟩
    · rw [he] at h1
      rcases assign_detection_snd (none, none) dets[0]? with he0 | ⟨d, hd, hp, hv⟩
      · rw [he0] at h1
        cases h1
      · rw [hv] at h1
        exact ⟨0, by norm_num, d, hd, hp, Option.some.inj h1⟩
    · rw [hv] at h1
      exact ⟨1, by norm_num, d, hd, hp, Option.some.inj h1⟩
  refine ⟨?_, ?_, ?_⟩
  · intro hnd h1
    cases dom
    · exact key1 hnd h1
    · exact key2 hnd h1
  · intro hnd h1
    cases dom
    · exact key2 hnd h1
    · exact key1 hnd h1
  · intro s lm hs
    simp [classify_hands, assign_detection, hs]

/-- C5 counterexample: a detection that parses to the ambiguous handedness
label "Unknown" is not dropped — `classify_hands` guesses it onto the left
slot, so it becomes the minor hand of the frame. -/
theorem C5_counterexample :
    classify_hands [⟨Payload.label "Unknown", blankHand⟩] true =
      (none, some blankHand) := by
  simp [classify_hands, assign_detection]

/-- C5 witness: a well-formed "Left"-labelled detection lands in the minor
role and is certified to come from a successfully parsed detection. -/
theorem C5_witness :
    ∃ i, i < 2 ∧ ∃ d, [Detection.mk (Payload.label "Left") blankHand][i]? = some d ∧
      d.payload ≠ Payload.malformed ∧ d.lm = blankHand :=
  (C5_theorem [⟨Payload.label "Left", blankHand⟩] true).2.1 blankHand
    (by simp [classify_hands, assign_detection])

/-- Python round of 0 is 0. -/
lemma pyRound1Q_zero : pyRound1Q 0 = 0 := by
  have h0 := roundHalfEvenQ_down (q := (0:ℚ)) (n := 0) (by norm_num) (by norm_num)
  simp [pyRound1Q, h0]

/-- The pinch displacement of the origin hand is 0. -/
lemma lvx_000 : getpinchxlv (pinchHand 0) ((1:ℚ)/2) = 0 := by
  have harg : (((pinchHand 0).landmark 8).x - 1/2) * 10 = 0 := by
    norm_num [pinchHand, lmk]
  rw [getpinchxlv, harg, pyRound1Q_zero]

/-- Quantization of a 0.035 offset: `round(0.35, 1)` ties to even, giving
0.4. -/
lemma lvx_035 : getpinchxlv (pinchHand (7/200)) ((1:ℚ)/2) = 2/5 := by
  have harg : (((pinchHand (7/200)).landmark 8).x - 1/2) * 10 = 7/20 := by
    norm_num [pinchHand, lmk]
  rw [getpinchxlv, harg]
  have h1 : (7:ℚ)/20 * 10 = 7/2 := by norm_num
  have h2 := roundHalfEvenQ_tie_odd (q := (7:ℚ)/2) (n := 3)
    (by norm_num [Int.floor_eq_iff]) (by norm_num) (by decide)
  rw [pyRound1Q, h1, h2]
  norm_num

/-- Quantization of a 0.036 offset: `round(0.36, 1) = 0.4`. -/
lemma lvx_036 : getpinchxlv (pinchHand (9/250)) ((1:ℚ)/2) = 2/5 := by
  have harg : (((pinchHand (9/250)).landmark 8).x - 1/2) * 10 = 9/25 := by
    norm_num [pinchHand, lmk]
  rw [getpinchxlv, harg]
  have h1 : (9:ℚ)/25 * 10 = 18/5 := by norm_num
  have h2 := roundHalfEvenQ_up (q := (18:ℚ)/5) (n := 3)
    (by norm_num [Int.floor_eq_iff]) (by norm_num)
  rw [pyRound1Q, h1, h2]
  norm_num

/-- Quantization of a 0.034 offset: `round(0.34, 1) = 0.3`. -/
lemma lvx_034 : getpinchxlv (pinchHand (17/500)) ((1:ℚ)/2) = 3/10 := by
  have harg : (((pinchHand (17/500)).landmark 8).x - 1/2) * 10 = 17/50 := by
    norm_num [pinchHand, lmk]
  rw [getpinchxlv, harg]
  have h1 : (17:ℚ)/50 * 10 = 17/5 := by norm_num
  have h2 := roundHalfEvenQ_down (q := (17:ℚ)/5) (n := 3)
    (by norm_num [Int.floor_eq_iff]) (by norm_num)
  rw [pyRound1Q, h1, h2]
  norm_num

/-- The vertical pinch displacement of every scenario hand is 0. -/
lemma lvy_any (d : ℚ) : getpinchylv (pinchHand d) ((1:ℚ)/2) = 0 := by
  have harg : ((1:ℚ)/2 - ((pinchHand d).landmark 8).y) * 10 = 0 := by
    norm_num [pinchHand, lmk]
  rw [getpinchylv, harg, pyRound1Q_zero]

/-- A `pinch_control` call with the counter away from 5, zero vertical
displacement and horizontal displacement within the threshold changes
nothing and scrolls nothing. -/
lemma pinch_step_below (h : Hand) (c : CtrlState) (hfc : c.framecount ≠ 5)
    (hy : getpinchylv h c.pinchstartycoord = 0)
    (hb : ¬ |getpinchxlv h c.pinchstartxcoord| > pinch_threshold) :
    pinch_control h c = (c, []) := by
  simp only [pinch_control, if_neg hfc, hy, abs_zero]
  rw [if_neg (by rintro ⟨-, hh⟩; norm_num [pinch_threshold] at hh), if_neg hb]

/-- A `pinch_control` call with the counter away from 5, zero vertical
displacement, and a horizontal displacement past the threshold but away from
the recorded level: re-record the level and reset the counter. -/
lemma pinch_step_record (h : Hand) (c : CtrlState) (hfc : c.framecount ≠ 5)
    (hy : getpinchylv h c.pinchstartycoord = 0)
    (hb : |getpinchxlv h c.pinchstartxcoord| > pinch_threshold)
    (hfar : ¬ |c.prevpinchlv - getpinchxlv h c.pinchstartxcoord| < pinch_threshold) :
    pinch_control h c =
      ({ c with pinchdirectionflag := true,
                prevpinchlv := getpinchxlv h c.pinchstartxcoord, framecount := 0 }, []) := by
  simp only [pinch_control, if_neg hfc, hy, abs_zero]
  rw [if_neg (by rintro ⟨-, hh⟩; norm_num [pinch_threshold] at hh), if_pos hb, if_neg hfar]

/-- A `pinch_control` call with the counter away from 5, zero vertical
displacement, and a horizontal displacement past the threshold and within
the threshold of the recorded level: bump the stability counter. -/
lemma pinch_step_stable (h : Hand) (c : CtrlState) (hfc : c.framecount ≠ 5)
    (hy : getpinchylv h c.pinchstartycoord = 0)
    (hb : |getpinchxlv h c.pinchstartxcoord| > pinch_threshold)
    (hcl : |c.prevpinchlv - getpinchxlv h c.pinchstartxcoord| < pinch_threshold) :
    pinch_control h c =
      ({ c with pinchdirectionflag := true, framecount := c.framecount + 1 }, []) := by
  simp only [pinch_control, if_neg hfc, hy, abs_zero]
  rw [if_neg (by rintro ⟨-, hh⟩; norm_num [pinch_threshold] at hh), if_pos hb, if_pos hcl]

/-- A `pinch_control` call with the counter at 5 in a horizontal session:
commit the quantized level, emit the horizontal scroll, reset the counter,
then process the (still stable) current displacement. -/
lemma pinch_step_commit (h : Hand) (c : CtrlState) (hfc : c.framecount = 5)
    (hdir : c.pinchdirectionflag = true)
    (hy : getpinchylv h c.pinchstartycoord = 0)
    (hb : |getpinchxlv h c.pinchstartxcoord| > pinch_threshold)
    (hcl : |c.prevpinchlv - getpinchxlv h c.pinchstartxcoord| < pinch_threshold) :
    pinch_control h c =
      ({ c with pinchlv := c.prevpinchlv, pinchdirectionflag := true, framecount := 1 },
        scrollHorizontalEvents c.prevpinchlv) := by
  simp only [pinch_control, if_pos hfc, hdir, if_true, hy, abs_zero]
  rw [if_neg (by rintro ⟨-, hh⟩; norm_num [pinch_threshold] at hh), if_pos hb, if_pos hcl]

/-- `pinch_control` fires a scroll action exactly when the stability counter
is 5 at entry, and in that case commits `pinchlv := prevpinchlv` and resets
the counter (the same call's update phase can push it back up to 1). -/
lemma pinch_general (h : Hand) (c : CtrlState) :
    (countScroll (pinch_control h c).2 = if c.framecount = 5 then 1 else 0) ∧
    (c.framecount = 5 →
      (pinch_control h c).1.pinchlv = c.prevpinchlv ∧
      (pinch_control h c).1.framecount ≤ 1) := by
  by_cases hfc : c.framecount = 5
  · simp only [pinch_control, if_pos hfc]
    refine ⟨?_, fun _ => ⟨?_, ?_⟩⟩
    · split_ifs <;>
        simp [countScroll, isScroll, scrollHorizontalEvents, scrollVerticalEvents, hfc]
    · split_ifs <;> rfl
    · split_ifs <;> simp
  · simp only [pinch_control, if_neg hfc]
    refine ⟨?_, fun hh => absurd hh hfc⟩
    split_ifs <;> simp [countScroll, hfc]

/-- The index-tip offsets of the C4 scenario: displacements 0, 0.035, 0.036,
0.034 and then 0.035 for every later frame. -/
def pinchOffsets (n : ℕ) : ℚ :=
  if n = 0 then 0
  else if n = 1 then 7/200
  else if n = 2 then 9/250
  else if n = 3 then 17/500
  else 7/200

/-- The hand stream of the C4 scenario. -/
def pinchStream : ℕ → Hand := fun n => pinchHand (pinchOffsets n)

/-- A pinch-session controller state over the origin `(1/2, 1/2)` with the
given direction flag, recorded level, quantized level and counter. -/
def pinchState (dir : Bool) (prev pl : ℚ) (fc : ℕ) : CtrlState :=
  ⟨false, false, false, true, 1/2, 1/2, dir, prev, pl, fc, none⟩

/-- The x origin of a pinch-session state is `1/2`. -/
lemma pinchState_startx (dir : Bool) (prev pl : ℚ) (fc : ℕ) :
    (pinchState dir prev pl fc).pinchstartxcoord = 1/2 := rfl

/-- The recorded displacement level of a pinch-session state. -/
lemma pinchState_prev (dir : Bool) (prev pl : ℚ) (fc : ℕ) :
    (pinchState dir prev pl fc).prevpinchlv = prev := rfl

/-- The stability counter of a pinch-session state. -/
lemma pinchState_fc (dir : Bool) (prev pl : ℚ) (fc : ℕ) :
    (pinchState dir prev pl fc).framecount = fc := rfl

/-- Stable scenario frame: a 0.035 offset while the recorded level is 0.4
bumps the counter. -/
lemma pinch_stable_step (k : ℕ) (hk : k ≠ 5) :
    pinch_control (pinchHand (7/200)) (pinchState true (2/5) 0 k) =
      (pinchState true (2/5) 0 (k + 1), []) := by
  rw [pinch_step_stable (pinchHand (7/200)) (pinchState true (2/5) 0 k)
    (by rw [pinchState_fc]; exact hk) (lvy_any (7/200))
    (by rw [pinchState_startx, lvx_035]; norm_num [pinch_threshold, abs_of_nonneg])
    (by rw [pinchState_startx, pinchState_prev, lvx_035]; norm_num [pinch_threshold])]
  rfl

/-- The 9-frame pinch-scroll scenario: no scroll through frame 8, and the
single horizontal commit on frame 9. -/
lemma pinch_trace :
    runPinch pinchStream (pinchState false 0 0 0) 8 = (pinchState true (2/5) 0 5, []) ∧
    runPinch pinchStream (pinchState false 0 0 0) 9 =
      (pinchState true (2/5) (2/5) 1, scrollHorizontalEvents (2/5)) := by
  have o0 : pinchOffsets 0 = 0 := by norm_num [pinchOffsets]
  have o1 : pinchOffsets 1 = 7/200 := by norm_num [pinchOffsets]
  have o2 : pinchOffsets 2 = 9/250 := by norm_num [pinchOffsets]
  have o3 : pinchOffsets 3 = 17/500 := by norm_num [pinchOffsets]
  have o4 : pinchOffsets 4 = 7/200 := by norm_num [pinchOffsets]
  have o5 : pinchOffsets 5 = 7/200 := by norm_num [pinchOffsets]
  have o6 : pinchOffsets 6 = 7/200 := by norm_num [pinchOffsets]
  have o7 : pinchOffsets 7 = 7/200 := by norm_num [pinchOffsets]
  have o8 : pinchOffsets 8 = 7/200 := by norm_num [pinchOffsets]
  have e0 : pinch_control (pinchHand 0) (pinchState false 0 0 0) =
      (pinchState false 0 0 0, []) := by
    rw [pinch_step_below (pinchHand 0) (pinchState false 0 0 0)
      (by rw [pinchState_fc]; norm_num) (lvy_any 0)
      (by rw [pinchState_startx, lvx_000]; norm_num [pinch_threshold])]
  have e1 : pinch_control (pinchHand (7/200)) (pinchState false 0 0 0) =
      (pinchState true (2/5) 0 0, []) := by
    rw [pinch_step_record (pinchHand (7/200)) (pinchState false 0 0 0)
      (by rw [pinchState_fc]; norm_num) (lvy_any (7/200))
      (by rw [pinchState_startx, lvx_035]; norm_num [pinch_threshold, abs_of_nonneg])
      (by rw [pinchState_startx, pinchState_prev, lvx_035];
          norm_num [pinch_threshold, abs_of_nonneg, abs_of_nonpos])]
    rw [pinchState_startx, lvx_035]
    rfl
  have e2 : pinch_control (pinchHand (9/250)) (pinchState true (2/5) 0 0) =
      (pinchState true (2/5) 0 1, []) := by
    rw [pinch_step_stable (pinchHand (9/250)) (pinchState true (2/5) 0 0)
      (by rw [pinchState_fc]; norm_num) (lvy_any (9/250))
      (by rw [pinchState_startx, lvx_036]; norm_num [pinch_threshold, abs_of_nonneg])
      (by rw [pinchState_startx, pinchState_prev, lvx_036]; norm_num [pinch_threshold])]
    rfl
  have e3 : pinch_control (pinchHand (17/500)) (pinchState true (2/5) 0 1) =
      (pinchState true (2/5) 0 1, []) := by
    rw [pinch_step_below (pinchHand (17/500)) (pinchState true (2/5) 0 1)
      (by rw [pinchState_fc]; norm_num) (lvy_any (17/500))
      (by rw [pinchState_startx, lvx_034]; norm_num [pinch_threshold, abs_of_nonneg])]
  have e4 := pinch_stable_step 1 (by norm_num)
  have e5 := pinch_stable_step 2 (by norm_num)
  have e6 := pinch_stable_step 3 (by norm_num)
  have e7 := pinch_stable_step 4 (by norm_num)
  have e8 : pinch_control (pinchHand (7/200)) (pinchState true (2/5) 0 5) =
      (pinchState true (2/5) (2/5) 1, scrollHorizontalEvents (2/5)) := by
    rw [pinch_step_commit (pinchHand (7/200)) (pinchState true (2/5) 0 5)
      (by rw [pinchState_fc]) rfl (lvy_any (7/200))
      (by rw [pinchState_startx, lvx_035]; norm_num [pinch_threshold, abs_of_nonneg])
      (by rw [pinchState_startx, pinchState_prev, lvx_035]; norm_num [pinch_threshold])]
    rfl
  constructor
  · simp only [runPinch, pinchStream, o0, o1, o2, o3, o4, o5, o6, o7,
      e0, e1, e2, e3, e4, e5, e6, e7, List.append_nil, List.nil_append]
  · simp only [runPinch, pinchStream, o0, o1, o2, o3, o4, o5, o6, o7, o8,
      e0, e1, e2, e3, e4, e5, e6, e7, e8, List.append_nil, List.nil_append]

/-- C4: in a pinch-scroll session, `pinch_control` fires a scroll exactly
when the stability counter has reached 5 (checked at entry), committing the
quantized level to the recorded displacement and resetting the counter.  For
the index-tip sequence whose displacements times 10 trace 0.0, 0.35, 0.36,
0.34, 0.35, ... over the origin (the quantized `lvx` values are 0, 0.4, 0.4,
0.3, 0.4, ...), no scroll is emitted through frame 8, and exactly one
horizontal scroll (shift+ctrl around a single wheel step) is committed on
frame 9 — the frame after the 5th counter-incrementing stable frame that
follows the first observation of `|lvx| > 0.3`. -/
theorem C4_theorem :
    (∀ (h : Hand) (c : CtrlState),
      (countScroll (pinch_control h c).2 = if c.framecount = 5 then 1 else 0) ∧
      (c.framecount = 5 →
        (pinch_control h c).1.pinchlv = c.prevpinchlv ∧
        (pinch_control h c).1.framecount ≤ 1)) ∧
    pinchState false 0 0 0 =
      { pinch_control_init (pinchHand 0) initCtrl with pinchminorflag := true } ∧
    countScroll (runPinch pinchStream (pinchState false 0 0 0) 8).2 = 0 ∧
    (runPinch pinchStream (pinchState false 0 0 0) 9).2 = scrollHorizontalEvents (2/5) ∧
    countScroll (runPinch pinchStream (pinchState false 0 0 0) 9).2 = 1 := by
  refine ⟨pinch_general, ?_, ?_, ?_, ?_⟩
  · simp [pinchState, pinch_control_init, pinchHand, lmk, initCtrl]
  · rw [pinch_trace.1]
    rfl
  · rw [pinch_trace.2]
  · rw [pinch_trace.2]
    rfl

/-- C4 witness: a pinch state whose counter is 5 commits the recorded level
and resets the counter on the next call. -/
theorem C4_witness :
    (pinch_control (pinchHand 0) (pinchState true (2/5) 0 5)).1.pinchlv =
      (pinchState true (2/5) 0 5).prevpinchlv ∧
    (pinch_control (pinchHand 0) (pinchState true (2/5) 0 5)).1.framecount ≤ 1 :=
  (C4_theorem.1 (pinchHand 0) (pinchState true (2/5) 0 5)).2 rfl

/-- The controller state returned by `get_position` only records the new
raw hand position. -/
lemma get_position_snd (h : Hand) (os : OSState) (c : CtrlState) :
    (get_position h os c).2 =
      { c with prev_hand := some (pyInt ((h.landmark 9).x * os.screen_w),
                                  pyInt ((h.landmark 9).y * os.screen_h)) } := rfl

/-- A PALM frame with no held button and no pinch flags is a no-op:
no position computation, no flag change, no events. -/
lemma handle_controls_palm (h : Hand) (c : CtrlState) (os : OSState)
    (hg : c.grabflag = false) (hpm : c.pinchmajorflag = false)
    (hpmi : c.pinchminorflag = false) :
    handle_controls Gest.PALM h c os = some (c, os, []) := by
  unfold handle_controls
  norm_num [hg, hpm, hpmi, Gest.PALM, Gest.V_GEST, Gest.FIST, Gest.MID, Gest.INDEX,
    Gest.TWO_FINGER_CLOSED, Gest.PINCH_MINOR, Gest.PINCH_MAJOR, combined_pinch_guard]

/-- A FIST frame with no held button presses the primary button once, moves
the cursor to the damped position, and raises the grab flag. -/
lemma handle_controls_fist (h : Hand) (c : CtrlState) (os : OSState)
    (hg : c.grabflag = false) (hpm : c.pinchmajorflag = false)
    (hpmi : c.pinchminorflag = false) :
    handle_controls Gest.FIST h c os =
      some ({ (get_position h os c).2 with grabflag := true },
        { os with cursor_x := (get_position h os c).1.1,
                  cursor_y := (get_position h os c).1.2 },
        [Event.mouseDown, Event.moveTo (get_position h os c).1.1
          (get_position h os c).1.2]) := by
  unfold handle_controls
  norm_num [get_position_snd, hg, hpm, hpmi, Gest.PALM, Gest.V_GEST, Gest.FIST,
    Gest.MID, Gest.INDEX, Gest.TWO_FINGER_CLOSED, Gest.PINCH_MINOR, Gest.PINCH_MAJOR,
    combined_pinch_guard]

/-- Evaluation of one full pipeline frame from its two halves. -/
lemma system_step_eval (s : SysState) (h : Hand) (g : ℕ) (r' : HandRecogState)
    (c' : CtrlState) (os' : OSState) (evs : List Event)
    (h1 : frame_step s.recog h = some (g, r'))
    (h2 : handle_controls g h s.ctrl s.os = some (c', os', evs)) :
    system_step s h = some (⟨r', c', os'⟩, evs) := by
  simp only [system_step, h1, h2]

/-- Trace of the full single-hand pipeline on FIST-candidate frames: for the
first five frames the settled gesture stays PALM and the controller does
nothing; the state carries the growing run counter. -/
lemma runSystem_fist (hs : ℕ → Hand) (os0 : OSState)
    (hyp : ∀ i, set_finger_state (hs i) = some 0) :
    ∀ n, n ≤ 4 → runSystem hs os0 (n + 1) =
      some (⟨⟨0, 31, 0, n, HLabel.MAJOR, some (hs n)⟩, initCtrl, os0⟩, []) := by
  intro n
  induction n with
  | zero =>
    intro _
    rw [runSystem]
    show (system_step ⟨initRecog HLabel.MAJOR, initCtrl, os0⟩ (hs 0)).map _ = _
    have hfs : frame_step (initRecog HLabel.MAJOR) (hs 0) =
        some (31, ⟨0, 31, 0, 0, HLabel.MAJOR, some (hs 0)⟩) := by
      rw [frame_step_eval _ _ 0 0 (hyp 0) (raw_of_fist (hs 0) _)]
      rfl
    rw [system_step_eval ⟨initRecog HLabel.MAJOR, initCtrl, os0⟩ (hs 0) 31
      ⟨0, 31, 0, 0, HLabel.MAJOR, some (hs 0)⟩ initCtrl os0 []
      hfs (handle_controls_palm (hs 0) initCtrl os0 rfl rfl rfl)]
    rfl
  | succ k ih =>
    intro hk
    rw [runSystem, ih (by omega)]
    show (system_step ⟨⟨0, 31, 0, k, HLabel.MAJOR, some (hs k)⟩, initCtrl, os0⟩
      (hs (k + 1))).map _ = _
    have hfs : frame_step (⟨0, 31, 0, k, HLabel.MAJOR, some (hs k)⟩ : HandRecogState)
        (hs (k + 1)) =
        some ((debounce_step ⟨31, 0, k⟩ 0).ori,
          ⟨0, (debounce_step ⟨31, 0, k⟩ 0).ori, 0, (debounce_step ⟨31, 0, k⟩ 0).fc,
            HLabel.MAJOR, some (hs (k + 1))⟩) :=
      frame_step_eval _ _ 0 0 (hyp (k + 1)) (raw_of_fist (hs (k + 1)) _)
    have hdeb : debounce_step ⟨31, 0, k⟩ 0 = ⟨31, 0, k + 1⟩ := by
      simp only [debounce_step, if_true]
      congr 1
      split_ifs <;> omega
    rw [hdeb] at hfs
    rw [system_step_eval ⟨⟨0, 31, 0, k, HLabel.MAJOR, some (hs k)⟩, initCtrl, os0⟩
      (hs (k + 1)) 31 ⟨0, 31, 0, k + 1, HLabel.MAJOR, some (hs (k + 1))⟩
      initCtrl os0 [] hfs (handle_controls_palm (hs (k + 1)) initCtrl os0 rfl rfl rfl)]
    rfl

/-- C2 (amended): from the initial classifier and controller state, feeding
frames whose raw gesture candidate is FIST (finger pattern 0), the settled
gesture is still PALM after exactly 5 frames — the first frame only resets
the run counter — and no button has been pressed; on frame 6 the gesture
settles to FIST and `handle_controls` presses the primary button exactly
once, on that settling frame. -/
theorem C2_theorem (hs : ℕ → Hand) (os0 : OSState)
    (hyp : ∀ i, set_finger_state (hs i) = some 0) :
    (runSystem hs os0 5).map (fun p => (p.1.recog.ori_gesture, countMouseDown p.2)) =
      some (Gest.PALM, 0) ∧
    (runSystem hs os0 6).map (fun p => (p.1.recog.ori_gesture, countMouseDown p.2)) =
      some (Gest.FIST, 1) := by
  constructor
  · rw [show (5:ℕ) = 4 + 1 from rfl, runSystem_fist hs os0 hyp 4 (by norm_num)]
    rfl
  · rw [show (6:ℕ) = 4 + 1 + 1 from rfl, runSystem,
      runSystem_fist hs os0 hyp 4 (by norm_num)]
    show ((system_step ⟨⟨0, 31, 0, 4, HLabel.MAJOR, some (hs 4)⟩, initCtrl, os0⟩
        (hs (4 + 1))).map (fun p => (p.1, [] ++ p.2))).map
      (fun p => (p.1.recog.ori_gesture, countMouseDown p.2)) = some (Gest.FIST, 1)
    have hfs : frame_step (⟨0, 31, 0, 4, HLabel.MAJOR, some (hs 4)⟩ : HandRecogState)
        (hs (4 + 1)) = some (0, ⟨0, 0, 0, 5, HLabel.MAJOR, some (hs (4 + 1))⟩) := by
      rw [frame_step_eval _ _ 0 0 (hyp (4 + 1)) (raw_of_fist (hs (4 + 1)) _)]
      rfl
    rw [system_step_eval ⟨⟨0, 31, 0, 4, HLabel.MAJOR, some (hs 4)⟩, initCtrl, os0⟩
      (hs (4 + 1)) 0 ⟨0, 0, 0, 5, HLabel.MAJOR, some (hs (4 + 1))⟩ _ _ _ hfs
      (handle_controls_fist (hs (4 + 1)) initCtrl os0 rfl rfl rfl)]
    rfl

/-- C2 counterexample: `closedHand` frames have raw candidate FIST from the
initial state, yet after exactly 5 frames the settled gesture is still PALM
— not FIST — and zero presses of the primary button have been emitted: the
first frame spends itself resetting the run counter, so 5 frames cannot
settle. -/
theorem C2_counterexample :
    set_finger_state closedHand = some Gest.FIST ∧
    (runSystem (fun _ => closedHand) testOS 5).map
      (fun p => (p.1.recog.ori_gesture, countMouseDown p.2)) = some (Gest.PALM, 0) ∧
    Gest.PALM ≠ Gest.FIST := by
  refine ⟨closedHand_sfs, ?_, by norm_num [Gest.PALM, Gest.FIST]⟩
  rw [show (5:ℕ) = 4 + 1 from rfl,
    runSystem_fist (fun _ => closedHand) testOS (fun _ => closedHand_sfs) 4 (by norm_num)]
  rfl

/-- C2 witness: the constant `closedHand` stream settles to FIST on frame 6
with exactly one button press, and was still unsettled with no press after
frame 5. -/
theorem C2_witness :
    (runSystem (fun _ => closedHand) testOS 5).map
      (fun p => (p.1.recog.ori_gesture, countMouseDown p.2)) = some (Gest.PALM, 0) ∧
    (runSystem (fun _ => closedHand) testOS 6).map
      (fun p => (p.1.recog.ori_gesture, countMouseDown p.2)) = some (Gest.FIST, 1) :=
  C2_theorem (fun _ => closedHand) testOS (fun _ => closedHand_sfs)

/-- C10 witness: the guard is false and the dispatch is defined at a
concrete call. -/
theorem C10_witness :
    ¬ combined_pinch_guard Gest.PINCH_MAJOR ∧
      (handle_controls Gest.PINCH_MAJOR blankHand initCtrl testOS).isSome = true :=
  C10_theorem Gest.PINCH_MAJOR blankHand initCtrl testOS
